import Mathlib

/-!
Verification development for the `ezgl` crate (`src/lib.rs`), a context
acquisition shim over glutin/glow.  The Rust code is shallowly embedded:
pure helper functions become Lean functions, the external platform calls
(handle resolution, display creation, configuration enumeration, surface
and context creation) become an environment record of their results, and
panics are modelled by an explicit `Outcome.panic` constructor.
-/

set_option autoImplicit false

namespace Ezgl

/-! ### Data model

A glutin `Config` is an opaque platform descriptor; the selection scan in
`new_with_debug_callback` only inspects `num_samples()` (a `u8`).  We keep
an `id` field so that distinct enumerated configurations with equal sample
counts remain distinguishable, as they are in the platform's enumeration.
-/

structure Config where
  id : Nat
  num_samples : Nat
deriving DecidableEq, Repr

/-- One step of the `Iterator::reduce` closure in `new_with_debug_callback`
(src/lib.rs lines 176-190): with a preference, a config whose sample count
equals the preference replaces the accumulator, otherwise the accumulator
is kept; without a preference, a config with strictly more samples than
the accumulator replaces it. -/
def selectStep (prefer_samples : Option Nat) (accum config : Config) : Config :=
  match prefer_samples with
  | some samples =>
    if config.num_samples = samples then config else accum
  | none =>
    if config.num_samples > accum.num_samples then config else accum

/-- The whole selection scan: Rust's `Iterator::reduce` is a left fold whose
initial accumulator is the first element, returning `None` on an empty
iterator (src/lib.rs lines 173-192, before the `expect`). -/
def selectConfig (prefer_samples : Option Nat) (configs : List Config) : Option Config :=
  match configs with
  | [] => none
  | c :: cs => some (cs.foldl (selectStep prefer_samples) c)

/-- Result of the config-selection block including the
`.expect("No configs found :(")` on line 191: an empty enumeration panics,
it is not surfaced as an `Error`. -/
inductive ConfigResult where
  | selected (c : Config)
  | panicNoConfigs
deriving DecidableEq, Repr

def chooseConfig (prefer_samples : Option Nat) (configs : List Config) : ConfigResult :=
  match selectConfig prefer_samples configs with
  | some c => ConfigResult.selected c
  | none => ConfigResult.panicNoConfigs

/-! ### Spec-side selection policies

These two definitions follow the spec's words (§4, `sample_preference`),
to be compared with `selectConfig`, which is embedded from the source. -/

/-- Greatest sample count among a list of configurations (0 on empty). -/
def maxSamples : List Config → Nat
  | [] => 0
  | c :: cs => max c.num_samples (maxSamples cs)

/-- Spec policy for an absent preference: "the configuration with the
greatest number of sample buffers ... ties broken by enumeration order —
first-seen wins": the first element attaining the maximal sample count. -/
def firstMaxConfig (l : List Config) : Option Config :=
  l.find? (fun c => c.num_samples == maxSamples l)

/-- The last element of the list whose sample count equals `samples`
(the behaviour the source's reduce actually implements for a present
preference). -/
def lastMatchConfig (samples : Nat) : List Config → Option Config
  | [] => none
  | c :: cs =>
    match lastMatchConfig samples cs with
    | some r => some r
    | none => if c.num_samples = samples then some c else none

/-- The sample-count multiset of the spec's running example, §8:
counts [0, 2, 4, 8]. -/
def cfgs0248 : List Config := [⟨0, 0⟩, ⟨1, 2⟩, ⟨2, 4⟩, ⟨3, 8⟩]

/-- Two distinct enumerated configurations sharing the sample count 4. -/
def dupCfgs : List Config := [⟨0, 4⟩, ⟨1, 4⟩]

/-! ### Errors, panics, and the acquisition pipeline

The crate's `Error` enum has two variants, `Glutin(glutin::error::Error)`
and `Rwh(raw_window_handle::HandleError)`; the wrapped library errors are
opaque to this crate and are modelled by a numeric code, as are handles,
displays, surfaces and contexts. -/

inductive Error where
  | glutin (code : Nat)
  | rwh (code : Nat)
deriving DecidableEq, Repr

/-- Result of running Rust code that returns `Result<α, Error>` but may
also panic (`unwrap` / `expect`): panics are a third, process-terminating
outcome distinct from returning an `Err`. -/
inductive Outcome (α : Type) where
  | ok (value : α)
  | err (e : Error)
  | panic (msg : String)
deriving DecidableEq, Repr

/-- The panic message of `Option::unwrap` on `None` (text abbreviated). -/
def unwrap_none_msg : String := "called Option::unwrap() on a None value"

/-- `NonZeroU32::new`: `None` exactly on zero. -/
def nonZeroU32_new (n : Nat) : Option Nat :=
  if n = 0 then none else some n

/-- glutin's `ConfigSurfaceTypes` bitflags. -/
structure ConfigSurfaceTypes where
  window : Bool
  pbuffer : Bool
  pixmap : Bool
deriving DecidableEq, Repr

def ConfigSurfaceTypes.WINDOW : ConfigSurfaceTypes := ⟨true, false, false⟩

/-- glutin's `ConfigTemplate`, restricted to the fields its builder can
set: the three fields `config_template` touches plus representative
further requirements standing for everything else the builder leaves at
its defaults. -/
structure ConfigTemplate where
  alpha_size : Nat
  num_samples : Option Nat
  native_window : Option Nat
  surface_type : ConfigSurfaceTypes
  red_size : Nat
  green_size : Nat
  blue_size : Nat
  depth_size : Nat
  stencil_size : Nat
  float_pixels : Bool
  transparency : Bool
deriving DecidableEq, Repr

/-- The template `ConfigTemplateBuilder::new()` starts from (glutin's
builder defaults: RGB888 + alpha 8, windowed surface, nothing else
required). -/
def ConfigTemplate.builder_default : ConfigTemplate :=
  { alpha_size := 8
    num_samples := none
    native_window := none
    surface_type := ConfigSurfaceTypes.WINDOW
    red_size := 8
    green_size := 8
    blue_size := 8
    depth_size := 0
    stencil_size := 0
    float_pixels := false
    transparency := false }

/-- glutin's `ConfigTemplateBuilder`: a wrapper over the template whose
`with_*` methods each set one field. -/
structure ConfigTemplateBuilder where
  template : ConfigTemplate
deriving DecidableEq, Repr

def ConfigTemplateBuilder.new : ConfigTemplateBuilder :=
  ⟨ConfigTemplate.builder_default⟩

def ConfigTemplateBuilder.with_alpha_size (b : ConfigTemplateBuilder)
    (n : Nat) : ConfigTemplateBuilder :=
  ⟨{ b.template with alpha_size := n }⟩

def ConfigTemplateBuilder.compatible_with_native_window
    (b : ConfigTemplateBuilder) (raw_window_handle : Nat) :
    ConfigTemplateBuilder :=
  ⟨{ b.template with native_window := some raw_window_handle }⟩

def ConfigTemplateBuilder.with_surface_type (b : ConfigTemplateBuilder)
    (t : ConfigSurfaceTypes) : ConfigTemplateBuilder :=
  ⟨{ b.template with surface_type := t }⟩

def ConfigTemplateBuilder.build (b : ConfigTemplateBuilder) : ConfigTemplate :=
  b.template

/-- src/lib.rs lines 299-306: alpha ≥ 8 bits, compatibility with the
native window, on-screen (WINDOW) surface type; nothing else. -/
def config_template (raw_window_handle : Nat) : ConfigTemplate :=
  (((ConfigTemplateBuilder.new.with_alpha_size 8).compatible_with_native_window
      raw_window_handle).with_surface_type ConfigSurfaceTypes.WINDOW).build

/-- glutin's `SurfaceAttributes<WindowSurface>` as built by
`surface_attributes`: the sRGB request plus handle and (non-zero)
dimensions. -/
structure SurfaceAttributes where
  raw_window_handle : Nat
  srgb : Option Bool
  width : Nat
  height : Nat
deriving DecidableEq, Repr

/-- src/lib.rs lines 308-321: `window.window_handle()?` surfaces an
`Error::Rwh`; then the two `NonZeroU32::new(..).unwrap()` calls panic on a
zero dimension, width first (Rust evaluates `build`'s arguments left to
right). -/
def surface_attributes (window_handle : Except Nat Nat) (width height : Nat) :
    Outcome SurfaceAttributes :=
  match window_handle with
  | Except.error e => Outcome.err (Error.rwh e)
  | Except.ok h =>
    match nonZeroU32_new width with
    | none => Outcome.panic unwrap_none_msg
    | some w =>
      match nonZeroU32_new height with
      | none => Outcome.panic unwrap_none_msg
      | some hh =>
        Outcome.ok { raw_window_handle := h, srgb := some true, width := w, height := hh }

/-- Results of the external platform calls made by
`new_with_debug_callback`, in source order.  Each field holds what the
corresponding foreign call would return. -/
structure Env where
  display_handle : Except Nat Nat
  window_handle : Except Nat Nat
  create_display : Except Nat Nat
  find_configs : Except Nat (List Config)
  create_window_surface : Except Nat Nat
  create_context_default : Except Nat Nat
  create_context_gles : Except Nat Nat
  make_current : Except Nat Nat
deriving Repr

/-- The two context attribute sets built on src/lib.rs lines 196-200:
default API, and GL ES requested explicitly. -/
inductive Api where
  | defaultApi
  | gles
deriving DecidableEq, Repr

/-- src/lib.rs lines 202-206:
`create_context(&config, &context_attributes).or_else(|_|
create_context(&config, &fallback_context_attributes))`, instrumented
with the list of attribute sets actually attempted. -/
def create_context_with_fallback (env : Env) : List Api × Except Nat Nat :=
  match env.create_context_default with
  | Except.ok c => ([Api.defaultApi], Except.ok c)
  | Except.error _ => ([Api.defaultApi, Api.gles], env.create_context_gles)

/-- src/lib.rs lines 156-227 (`new_with_debug_callback`): the `?` and
`expect`/`unwrap` control flow, with each external call's result drawn
from `env`.  The glow loader and debug-callback registration cannot fail,
so the returned bundle is modelled by the (surface, context) pair. -/
def new_with_debug_callback (env : Env) (width height : Nat)
    (prefer_samples : Option Nat) : Outcome (Nat × Nat) :=
  match env.display_handle with
  | Except.error e => Outcome.err (Error.rwh e)
  | Except.ok _display_handle =>
    match env.window_handle with
    | Except.error e => Outcome.err (Error.rwh e)
    | Except.ok window_handle =>
      match env.create_display with
      | Except.error e => Outcome.err (Error.glutin e)
      | Except.ok _display =>
        let _template := config_template window_handle
        match env.find_configs with
        | Except.error e => Outcome.err (Error.glutin e)
        | Except.ok configs =>
          match chooseConfig prefer_samples configs with
          | ConfigResult.panicNoConfigs => Outcome.panic "No configs found :("
          | ConfigResult.selected _config =>
            match surface_attributes env.window_handle width height with
            | Outcome.err e => Outcome.err e
            | Outcome.panic msg => Outcome.panic msg
            | Outcome.ok _attributes =>
              match env.create_window_surface with
              | Except.error e => Outcome.err (Error.glutin e)
              | Except.ok surface =>
                match (create_context_with_fallback env).2 with
                | Except.error e => Outcome.err (Error.glutin e)
                | Except.ok context =>
                  match env.make_current with
                  | Except.error e => Outcome.err (Error.glutin e)
                  | Except.ok _current => Outcome.ok (surface, context)

/-! ### resize -/

/-- The state `resize` can observe or change: the surface's dimensions and
the GL viewport (an opaque rectangle `resize` never issues a command
against). -/
structure EzglState where
  surface_width : Nat
  surface_height : Nat
  viewport : Nat × Nat × Nat × Nat
deriving DecidableEq, Repr

/-- src/lib.rs lines 233-243: early return when either dimension is zero,
otherwise `Surface::resize` with the two (now guaranteed non-zero)
dimensions.  The Rust method returns `()`: it has no error path. -/
def resize (st : EzglState) (width height : Nat) : EzglState :=
  if width = 0 ∨ height = 0 then st
  else { st with surface_width := width, surface_height := height }

/-! ### The default debug callback

The numeric codes are glow's re-exports of the standard OpenGL debug
constants. -/

def DEBUG_SEVERITY_HIGH : Nat := 0x9146
def DEBUG_SEVERITY_MEDIUM : Nat := 0x9147
def DEBUG_SEVERITY_LOW : Nat := 0x9148
def DEBUG_SEVERITY_NOTIFICATION : Nat := 0x826B

def DEBUG_SOURCE_API : Nat := 0x8246
def DEBUG_SOURCE_WINDOW_SYSTEM : Nat := 0x8247
def DEBUG_SOURCE_SHADER_COMPILER : Nat := 0x8248
def DEBUG_SOURCE_THIRD_PARTY : Nat := 0x8249
def DEBUG_SOURCE_APPLICATION : Nat := 0x824A
def DEBUG_SOURCE_OTHER : Nat := 0x824B

def DEBUG_TYPE_ERROR : Nat := 0x824C
def DEBUG_TYPE_DEPRECATED_BEHAVIOR : Nat := 0x824D
def DEBUG_TYPE_UNDEFINED_BEHAVIOR : Nat := 0x824E
def DEBUG_TYPE_PORTABILITY : Nat := 0x824F
def DEBUG_TYPE_PERFORMANCE : Nat := 0x8250
def DEBUG_TYPE_MARKER : Nat := 0x8268
def DEBUG_TYPE_PUSH_GROUP : Nat := 0x8269
def DEBUG_TYPE_POP_GROUP : Nat := 0x826A
def DEBUG_TYPE_OTHER : Nat := 0x8251

/-- The severity arm of the `match` in `default_debug_callback`
(src/lib.rs lines 45-51); a Rust match on distinct constants equals this
chain of equality tests. -/
def decode_severity (severity : Nat) : String :=
  if severity = DEBUG_SEVERITY_HIGH then "HIGH"
  else if severity = DEBUG_SEVERITY_MEDIUM then "MEDIUM"
  else if severity = DEBUG_SEVERITY_LOW then "LOW"
  else if severity = DEBUG_SEVERITY_NOTIFICATION then "NOTIFICATION"
  else "unknown"

/-- The source arm (src/lib.rs lines 52-60). -/
def decode_source (source : Nat) : String :=
  if source = DEBUG_SOURCE_API then "API"
  else if source = DEBUG_SOURCE_WINDOW_SYSTEM then "WINDOW_SYSTEM"
  else if source = DEBUG_SOURCE_SHADER_COMPILER then "SHADER_COMPILER"
  else if source = DEBUG_SOURCE_THIRD_PARTY then "THIRD_PARTY"
  else if source = DEBUG_SOURCE_APPLICATION then "APPLICATION"
  else if source = DEBUG_SOURCE_OTHER then "OTHER"
  else "unknown"

/-- The type arm (src/lib.rs lines 61-72). -/
def decode_type (type_ : Nat) : String :=
  if type_ = DEBUG_TYPE_ERROR then "ERROR"
  else if type_ = DEBUG_TYPE_DEPRECATED_BEHAVIOR then "DEPRECATED_BEHAVIOR"
  else if type_ = DEBUG_TYPE_UNDEFINED_BEHAVIOR then "UNDEFINED_BEHAVIOR"
  else if type_ = DEBUG_TYPE_PORTABILITY then "PORTABILITY"
  else if type_ = DEBUG_TYPE_PERFORMANCE then "PERFORMANCE"
  else if type_ = DEBUG_TYPE_MARKER then "MARKER"
  else if type_ = DEBUG_TYPE_PUSH_GROUP then "PUSH_GROUP"
  else if type_ = DEBUG_TYPE_POP_GROUP then "POP_GROUP"
  else if type_ = DEBUG_TYPE_OTHER then "OTHER"
  else "unknown"

/-- src/lib.rs lines 41-75: one `println!` call (one emitted record) whose
arguments decode the three numeric enums; total, so it never fails. -/
def default_debug_callback (source type_ id severity : Nat)
    (message : String) : List String :=
  let sev := decode_severity severity
  let src := decode_source source
  let ty := decode_type type_
  [s!"DEBUG: {message}: severity={sev} source={src} type={ty} id={id}"]

/-! ### Environments used as concrete inputs -/

/-- All platform calls succeed but enumeration returns no configuration. -/
def envEmptyConfigs : Env :=
  { display_handle := Except.ok 1
    window_handle := Except.ok 2
    create_display := Except.ok 3
    find_configs := Except.ok []
    create_window_surface := Except.ok 4
    create_context_default := Except.ok 5
    create_context_gles := Except.ok 6
    make_current := Except.ok 7 }

/-- Both context-creation attempts fail; everything else succeeds. -/
def envCtxFail : Env :=
  { display_handle := Except.ok 1
    window_handle := Except.ok 2
    create_display := Except.ok 3
    find_configs := Except.ok cfgs0248
    create_window_surface := Except.ok 4
    create_context_default := Except.error 11
    create_context_gles := Except.error 12
    make_current := Except.ok 7 }

/-- Every platform call succeeds; used with zero dimensions. -/
def envZeroDim : Env :=
  { display_handle := Except.ok 1
    window_handle := Except.ok 2
    create_display := Except.ok 3
    find_configs := Except.ok cfgs0248
    create_window_surface := Except.ok 4
    create_context_default := Except.ok 5
    create_context_gles := Except.ok 6
    make_current := Except.ok 7 }

/-! ### Lemmas about the selection scan -/

theorem selectStep_eq_or (p : Option Nat) (a c : Config) :
    selectStep p a c = a ∨ selectStep p a c = c := by
  cases p <;> simp only [selectStep] <;> split <;> simp

theorem foldl_selectStep_mem (p : Option Nat) :
    ∀ (cs : List Config) (a : Config), cs.foldl (selectStep p) a ∈ a :: cs := by
  intro cs
  induction cs with
  | nil => intro a; simp
  | cons c cs ih =>
    intro a
    rw [List.foldl_cons]
    rcases selectStep_eq_or p a c with he | he
    · rw [he]
      rcases List.mem_cons.mp (ih a) with h1 | h1
      · rw [h1]; exact List.mem_cons_self _ _
      · exact List.mem_cons_of_mem _ (List.mem_cons_of_mem _ h1)
    · rw [he]
      rcases List.mem_cons.mp (ih c) with h1 | h1
      · rw [h1]; exact List.mem_cons_of_mem _ (List.mem_cons_self _ _)
      · exact List.mem_cons_of_mem _ (List.mem_cons_of_mem _ h1)

theorem num_samples_le_maxSamples (x : Config) :
    ∀ (l : List Config), x ∈ l → x.num_samples ≤ maxSamples l := by
  intro l
  induction l with
  | nil => intro h; cases h
  | cons c cs ih =>
    intro hmem
    rcases List.mem_cons.mp hmem with h | h
    · subst h; exact Nat.le_max_left _ _
    · exact Nat.le_trans (ih h) (Nat.le_max_right _ _)

/-- The no-preference fold computes exactly the spec's first-max policy. -/
theorem foldl_none_eq_firstMax :
    ∀ (cs : List Config) (c : Config),
      (c :: cs).find? (fun x => x.num_samples == maxSamples (c :: cs)) =
        some (cs.foldl (selectStep none) c) := by
  intro cs
  induction cs with
  | nil =>
    intro c
    simp [maxSamples, List.find?]
  | cons c' cs' ih =>
    intro c
    rw [List.foldl_cons]
    by_cases hgt : c'.num_samples > c.num_samples
    · have hstep : selectStep none c c' = c' := by
        unfold selectStep; simp [hgt]
      rw [hstep]
      have hle : c'.num_samples ≤ maxSamples (c' :: cs') := Nat.le_max_left _ _
      have hM : maxSamples (c :: c' :: cs') = maxSamples (c' :: cs') := by
        show max c.num_samples (maxSamples (c' :: cs')) = maxSamples (c' :: cs')
        omega
      have hcne : (c.num_samples == maxSamples (c :: c' :: cs')) = false := by
        rw [hM]
        simp only [beq_eq_false_iff_ne, ne_eq]
        omega
      rw [List.find?_cons]
      simp only [hcne]
      rw [hM]
      exact ih c'
    · have hstep : selectStep none c c' = c := by
        unfold selectStep; simp [hgt]
      rw [hstep]
      have hM : maxSamples (c :: c' :: cs') = maxSamples (c :: cs') := by
        show max c.num_samples (max c'.num_samples (maxSamples cs')) =
          max c.num_samples (maxSamples cs')
        omega
      rw [hM]
      have hih := ih c
      by_cases hc : c.num_samples = maxSamples (c :: cs')
      · have hpc : (c.num_samples == maxSamples (c :: cs')) = true := by
          simp [hc]
        simp only [List.find?_cons, hpc] at hih ⊢
        exact hih
      · have hpc : (c.num_samples == maxSamples (c :: cs')) = false := by
          simp only [beq_eq_false_iff_ne, ne_eq]
          exact hc
        have hcle : c.num_samples ≤ maxSamples (c :: cs') := Nat.le_max_left _ _
        have hpc' : (c'.num_samples == maxSamples (c :: cs')) = false := by
          simp only [beq_eq_false_iff_ne, ne_eq]
          omega
        simp only [List.find?_cons, hpc] at hih
        simp only [List.find?_cons, hpc, hpc']
        exact hih

/-- The with-preference fold keeps the initial accumulator unless a later
element matches the preference, in which case the last match wins. -/
theorem foldl_some_eq_lastMatch (samples : Nat) :
    ∀ (cs : List Config) (c : Config),
      cs.foldl (selectStep (some samples)) c =
        match lastMatchConfig samples cs with
        | some r => r
        | none => c := by
  intro cs
  induction cs with
  | nil => intro c; rfl
  | cons c' cs' ih =>
    intro c
    rw [List.foldl_cons, ih (selectStep (some samples) c c')]
    cases h : lastMatchConfig samples cs' with
    | some r => simp [lastMatchConfig, h]
    | none =>
      by_cases hm : c'.num_samples = samples <;>
        simp [lastMatchConfig, h, selectStep, hm]

theorem lastMatchConfig_eq_none_iff (samples : Nat) :
    ∀ (l : List Config),
      lastMatchConfig samples l = none ↔ ∀ x ∈ l, x.num_samples ≠ samples := by
  intro l
  induction l with
  | nil => simp [lastMatchConfig]
  | cons c cs ih =>
    simp only [lastMatchConfig]
    cases h : lastMatchConfig samples cs with
    | some r =>
      constructor
      · intro hnone; exact Option.noConfusion hnone
      · intro hall
        have hcs : ∀ x ∈ cs, x.num_samples ≠ samples :=
          fun x hx => hall x (List.mem_cons_of_mem _ hx)
        have hn := ih.mpr hcs
        rw [hn] at h
        exact Option.noConfusion h
    | none =>
      by_cases hm : c.num_samples = samples
      · simp only [if_pos hm]
        constructor
        · intro hnone; exact Option.noConfusion hnone
        · intro hall
          exact absurd hm (hall c (List.mem_cons_self c cs))
      · simp only [if_neg hm]
        constructor
        · intro _ x hx
          rcases List.mem_cons.mp hx with rfl | hx'
          · exact hm
          · exact (ih.mp h) x hx'
        · intro _; trivial

/-! ### Claims C1-C4: the configuration selection scan -/

/-- C1 counterexample: with enumerated sample counts [0, 2, 4, 8] and
preference 16 (matched by nothing), the scan returns the FIRST enumerated
configuration (sample count 0), while the no-preference policy run on the
same list returns the one with sample count 8 — so the claimed
fallback-to-max does not hold. -/
theorem claim_C1_counterexample :
    selectConfig (some 16) cfgs0248 = some (Config.mk 0 0) ∧
      selectConfig none cfgs0248 = some (Config.mk 3 8) ∧
      (Config.mk 0 0 : Config) ≠ Config.mk 3 8 := by
  decide

/-- C1 (amended): for every non-empty enumerated configuration list and a
sample_preference that no enumerated configuration's sample count equals,
the selection scan keeps its initial accumulator and selects the FIRST
enumerated configuration (not the maximum-sample one): the reduce closure
only ever replaces the accumulator on an exact match. -/
theorem claim_C1_amended_first_on_no_match (samples : Nat) (c : Config)
    (cs : List Config) (h : ∀ x ∈ c :: cs, x.num_samples ≠ samples) :
    selectConfig (some samples) (c :: cs) = some c := by
  show some (cs.foldl (selectStep (some samples)) c) = some c
  rw [foldl_some_eq_lastMatch]
  have hnone : lastMatchConfig samples cs = none :=
    (lastMatchConfig_eq_none_iff samples cs).mpr
      (fun x hx => h x (List.mem_cons_of_mem _ hx))
  rw [hnone]

/-- C1 witness: the spec's running example, sample counts [0, 2, 4, 8] with
preference 16, selects the configuration with sample count 0. -/
theorem claim_C1_witness :
    (∀ x ∈ cfgs0248, x.num_samples ≠ 16) ∧
      selectConfig (some 16) cfgs0248 = some (Config.mk 0 0) := by
  refine ⟨by decide, ?_⟩
  exact claim_C1_amended_first_on_no_match 16 ⟨0, 0⟩ [⟨1, 2⟩, ⟨2, 4⟩, ⟨3, 8⟩]
    (by decide)

/-- C2 counterexample: with two distinct enumerated configurations both of
sample count 4 and preference 4, the scan returns the second one, not the
first matching one (each later exact match replaces the accumulator). -/
theorem claim_C2_counterexample :
    selectConfig (some 4) dupCfgs = some (Config.mk 1 4) ∧
      dupCfgs.find? (fun x => x.num_samples == 4) = some (Config.mk 0 4) ∧
      (Config.mk 1 4 : Config) ≠ Config.mk 0 4 := by
  decide

/-- C2 (amended): for every non-empty enumerated configuration list and a
present sample_preference matched by at least one configuration, the scan
selects the LAST enumerated configuration whose sample count equals the
preference; in particular, for sample counts [0, 2, 4, 8] and preference 4,
it selects the (unique) configuration with sample count 4, not 8. -/
theorem claim_C2_amended_last_match (samples : Nat) (c : Config)
    (cs : List Config) (h : ∃ x ∈ c :: cs, x.num_samples = samples) :
    selectConfig (some samples) (c :: cs) = lastMatchConfig samples (c :: cs) := by
  show some (cs.foldl (selectStep (some samples)) c) = _
  rw [foldl_some_eq_lastMatch]
  cases hcs : lastMatchConfig samples cs with
  | some r => simp [lastMatchConfig, hcs]
  | none =>
    have hnone := (lastMatchConfig_eq_none_iff samples cs).mp hcs
    obtain ⟨x, hx, hxs⟩ := h
    rcases List.mem_cons.mp hx with rfl | hx'
    · simp [lastMatchConfig, hcs, hxs]
    · exact absurd hxs (hnone x hx')

/-- C2 witness: sample counts [0, 2, 4, 8] with preference 4 select the
configuration with sample count 4 (and not the one with 8). -/
theorem claim_C2_witness :
    (∃ x ∈ cfgs0248, x.num_samples = 4) ∧
      selectConfig (some 4) cfgs0248 = some (Config.mk 2 4) := by
  refine ⟨by decide, ?_⟩
  have h := claim_C2_amended_last_match 4 ⟨0, 0⟩ [⟨1, 2⟩, ⟨2, 4⟩, ⟨3, 8⟩]
    ⟨⟨2, 4⟩, by decide, rfl⟩
  exact h.trans (by decide)

/-- C3: with no sample_preference the scan selects the configuration with
the greatest sample count, earliest-enumerated on ties (it equals the
spec-side first-max policy); in particular, for sample counts [0, 2, 4, 8]
it selects the configuration with sample count 8. -/
theorem claim_C3_no_preference_max_first :
    (∀ (c : Config) (cs : List Config),
        selectConfig none (c :: cs) = firstMaxConfig (c :: cs)) ∧
      selectConfig none cfgs0248 = some (Config.mk 3 8) := by
  constructor
  · intro c cs
    exact (foldl_none_eq_firstMax cs c).symm
  · decide

/-- C4: for every preference (present or absent) and every non-empty
enumerated configuration list, the selection scan produces a configuration
that is an element of the list; the `.expect("No configs found :(")`
failure branch is unreachable on a non-empty enumeration. -/
theorem claim_C4_selection_total (prefer_samples : Option Nat) (c : Config)
    (cs : List Config) :
    ∃ r, chooseConfig prefer_samples (c :: cs) = ConfigResult.selected r ∧
      r ∈ c :: cs := by
  exact ⟨cs.foldl (selectStep prefer_samples) c, rfl,
    foldl_selectStep_mem prefer_samples cs c⟩

/-! ### Claims C5-C10 -/

/-- C5: when configuration enumeration returns zero configurations (all
earlier steps having succeeded), `new_with_debug_callback` panics via the
`expect` rather than returning any `Error` variant to the caller. -/
theorem claim_C5_empty_enumeration_panics (env : Env) (width height : Nat)
    (prefer_samples : Option Nat) {dh wh d : Nat}
    (h1 : env.display_handle = Except.ok dh)
    (h2 : env.window_handle = Except.ok wh)
    (h3 : env.create_display = Except.ok d)
    (h4 : env.find_configs = Except.ok []) :
    new_with_debug_callback env width height prefer_samples =
        Outcome.panic "No configs found :(" ∧
      ∀ e, new_with_debug_callback env width height prefer_samples ≠
        Outcome.err e := by
  have hp : new_with_debug_callback env width height prefer_samples =
      Outcome.panic "No configs found :(" := by
    simp only [new_with_debug_callback, h1, h2, h3, h4, chooseConfig,
      selectConfig]
  refine ⟨hp, fun e he => ?_⟩
  rw [hp] at he
  exact Outcome.noConfusion he

/-- C5 witness: a concrete environment whose enumeration is empty. -/
theorem claim_C5_witness :
    new_with_debug_callback envEmptyConfigs 640 480 none =
        Outcome.panic "No configs found :(" ∧
      ∀ e, new_with_debug_callback envEmptyConfigs 640 480 none ≠
        Outcome.err e :=
  claim_C5_empty_enumeration_panics envEmptyConfigs 640 480 none rfl rfl rfl rfl

/-- C6: context creation attempts the default attributes first; on success
no further attempt is made, on failure exactly one GL ES attempt follows
(never a third — at most two attempts ever), and a failure of that second
attempt propagates out of `new_with_debug_callback` as a Glutin `Error`. -/
theorem claim_C6_context_fallback (env : Env) :
    (∀ c, env.create_context_default = Except.ok c →
        create_context_with_fallback env = ([Api.defaultApi], Except.ok c)) ∧
      (∀ e, env.create_context_default = Except.error e →
        create_context_with_fallback env =
          ([Api.defaultApi, Api.gles], env.create_context_gles)) ∧
      (create_context_with_fallback env).1.length ≤ 2 ∧
      (∀ (width height : Nat) (prefer_samples : Option Nat)
          {dh wh d sf e e2 : Nat} {cfg : Config} {cfgs : List Config},
        env.display_handle = Except.ok dh →
        env.window_handle = Except.ok wh →
        env.create_display = Except.ok d →
        env.find_configs = Except.ok (cfg :: cfgs) →
        width ≠ 0 → height ≠ 0 →
        env.create_window_surface = Except.ok sf →
        env.create_context_default = Except.error e →
        env.create_context_gles = Except.error e2 →
        new_with_debug_callback env width height prefer_samples =
          Outcome.err (Error.glutin e2)) := by
  refine ⟨?_, ?_, ?_, ?_⟩
  · intro c hc
    simp [create_context_with_fallback, hc]
  · intro e he
    simp [create_context_with_fallback, he]
  · unfold create_context_with_fallback
    cases env.create_context_default <;> simp
  · intro width height prefer_samples dh wh d sf e e2 cfg cfgs h1 h2 h3 h4
      hw hh h5 hcd hcg
    have hsa : surface_attributes (Except.ok wh) width height =
        Outcome.ok ⟨wh, some true, width, height⟩ := by
      simp [surface_attributes, nonZeroU32_new, hw, hh]
    have hctx : (create_context_with_fallback env).2 = Except.error e2 := by
      simp [create_context_with_fallback, hcd, hcg]
    simp only [new_with_debug_callback, h1, h2, h3, h4, chooseConfig,
      selectConfig, hsa, h5, hctx]

/-- C6 witness: with both context attempts failing, exactly the two
attempts are made and the second failure propagates as a Glutin error. -/
theorem claim_C6_witness :
    create_context_with_fallback envCtxFail =
        ([Api.defaultApi, Api.gles], Except.error 12) ∧
      new_with_debug_callback envCtxFail 640 480 none =
        Outcome.err (Error.glutin 12) := by
  refine ⟨?_, ?_⟩
  · exact ((claim_C6_context_fallback envCtxFail).2.1 11 rfl).trans rfl
  · exact (claim_C6_context_fallback envCtxFail).2.2.2 640 480 none rfl rfl
      rfl rfl (by decide) (by decide) rfl rfl rfl

/-- C7: `resize` is a silent no-op when either dimension is zero (state
unchanged, no error — the Rust method returns `()`), otherwise updates the
surface dimensions in place; in all cases it never modifies the GL
viewport. -/
theorem claim_C7_resize (st : EzglState) (width height : Nat) :
    ((width = 0 ∨ height = 0) → resize st width height = st) ∧
      (width ≠ 0 → height ≠ 0 →
        resize st width height =
          { st with surface_width := width, surface_height := height }) ∧
      (resize st width height).viewport = st.viewport := by
  refine ⟨?_, ?_, ?_⟩
  · intro h
    rcases h with h | h <;> simp [resize, h]
  · intro hw hh
    simp [resize, hw, hh]
  · by_cases hw : width = 0
    · simp [resize, hw]
    · by_cases hh : height = 0
      · simp [resize, hw, hh]
      · simp [resize, hw, hh]

/-- C7 witness: a zero width leaves a live state unchanged; non-zero
dimensions update the surface and leave the viewport alone. -/
theorem claim_C7_witness :
    resize ⟨10, 20, (1, 2, 3, 4)⟩ 0 5 = ⟨10, 20, (1, 2, 3, 4)⟩ ∧
      resize ⟨10, 20, (1, 2, 3, 4)⟩ 3 5 = ⟨3, 5, (1, 2, 3, 4)⟩ :=
  ⟨(claim_C7_resize ⟨10, 20, (1, 2, 3, 4)⟩ 0 5).1 (Or.inl rfl),
   (claim_C7_resize ⟨10, 20, (1, 2, 3, 4)⟩ 3 5).2.1 (by decide) (by decide)⟩

/-- C8: the default debug callback always emits exactly one formatted
record, decodes each documented severity/source/type code to its symbolic
name, and decodes every other code as "unknown". -/
theorem claim_C8_debug_callback (source type_ id severity : Nat)
    (message : String) :
    (default_debug_callback source type_ id severity message).length = 1 ∧
      (decode_severity DEBUG_SEVERITY_HIGH = "HIGH" ∧
        decode_severity DEBUG_SEVERITY_MEDIUM = "MEDIUM" ∧
        decode_severity DEBUG_SEVERITY_LOW = "LOW" ∧
        decode_severity DEBUG_SEVERITY_NOTIFICATION = "NOTIFICATION" ∧
        decode_source DEBUG_SOURCE_API = "API" ∧
        decode_source DEBUG_SOURCE_WINDOW_SYSTEM = "WINDOW_SYSTEM" ∧
        decode_source DEBUG_SOURCE_SHADER_COMPILER = "SHADER_COMPILER" ∧
        decode_source DEBUG_SOURCE_THIRD_PARTY = "THIRD_PARTY" ∧
        decode_source DEBUG_SOURCE_APPLICATION = "APPLICATION" ∧
        decode_source DEBUG_SOURCE_OTHER = "OTHER" ∧
        decode_type DEBUG_TYPE_ERROR = "ERROR" ∧
        decode_type DEBUG_TYPE_DEPRECATED_BEHAVIOR = "DEPRECATED_BEHAVIOR" ∧
        decode_type DEBUG_TYPE_UNDEFINED_BEHAVIOR = "UNDEFINED_BEHAVIOR" ∧
        decode_type DEBUG_TYPE_PORTABILITY = "PORTABILITY" ∧
        decode_type DEBUG_TYPE_PERFORMANCE = "PERFORMANCE" ∧
        decode_type DEBUG_TYPE_MARKER = "MARKER" ∧
        decode_type DEBUG_TYPE_PUSH_GROUP = "PUSH_GROUP" ∧
        decode_type DEBUG_TYPE_POP_GROUP = "POP_GROUP" ∧
        decode_type DEBUG_TYPE_OTHER = "OTHER") ∧
      (severity ∉ [DEBUG_SEVERITY_HIGH, DEBUG_SEVERITY_MEDIUM,
          DEBUG_SEVERITY_LOW, DEBUG_SEVERITY_NOTIFICATION] →
        decode_severity severity = "unknown") ∧
      (source ∉ [DEBUG_SOURCE_API, DEBUG_SOURCE_WINDOW_SYSTEM,
          DEBUG_SOURCE_SHADER_COMPILER, DEBUG_SOURCE_THIRD_PARTY,
          DEBUG_SOURCE_APPLICATION, DEBUG_SOURCE_OTHER] →
        decode_source source = "unknown") ∧
      (type_ ∉ [DEBUG_TYPE_ERROR, DEBUG_TYPE_DEPRECATED_BEHAVIOR,
          DEBUG_TYPE_UNDEFINED_BEHAVIOR, DEBUG_TYPE_PORTABILITY,
          DEBUG_TYPE_PERFORMANCE, DEBUG_TYPE_MARKER, DEBUG_TYPE_PUSH_GROUP,
          DEBUG_TYPE_POP_GROUP, DEBUG_TYPE_OTHER] →
        decode_type type_ = "unknown") := by
  refine ⟨rfl, by decide, ?_, ?_, ?_⟩
  · intro h
    simp only [List.mem_cons, List.not_mem_nil, or_false] at h
    push_neg at h
    obtain ⟨hh1, hh2, hh3, hh4⟩ := h
    simp [decode_severity, hh1, hh2, hh3, hh4]
  · intro h
    simp only [List.mem_cons, List.not_mem_nil, or_false] at h
    push_neg at h
    obtain ⟨hs1, hs2, hs3, hs4, hs5, hs6⟩ := h
    simp [decode_source, hs1, hs2, hs3, hs4, hs5, hs6]
  · intro h
    simp only [List.mem_cons, List.not_mem_nil, or_false] at h
    push_neg at h
    obtain ⟨ht1, ht2, ht3, ht4, ht5, ht6, ht7, ht8, ht9⟩ := h
    simp [decode_type, ht1, ht2, ht3, ht4, ht5, ht6, ht7, ht8, ht9]

/-- C8 witness: code 0 lies outside all three enumerations and decodes to
"unknown" everywhere, while the callback still emits one record. -/
theorem claim_C8_witness :
    decode_severity 0 = "unknown" ∧ decode_source 0 = "unknown" ∧
      decode_type 0 = "unknown" ∧
      (default_debug_callback 0 0 0 0 "hello").length = 1 := by
  have h := claim_C8_debug_callback 0 0 0 0 "hello"
  exact ⟨h.2.2.1 (by decide), h.2.2.2.1 (by decide), h.2.2.2.2 (by decide),
    h.1⟩

/-- C9: the configuration template requires 8 bits of alpha, compatibility
with the given native window, and the on-screen WINDOW surface type, and
nothing else beyond the builder's defaults. -/
theorem claim_C9_config_template (raw_window_handle : Nat) :
    config_template raw_window_handle =
      { ConfigTemplate.builder_default with
          alpha_size := 8
          native_window := some raw_window_handle
          surface_type := ConfigSurfaceTypes.WINDOW } := rfl

/-- C10: a zero dimension that reaches surface-attribute construction
panics on `NonZeroU32::new(..).unwrap()` instead of returning an `Error`
or proceeding — both at `surface_attributes` itself and through
`new`/`new_with_debug_callback` once enumeration succeeded. -/
theorem claim_C10_zero_dimension_panics (wh width height : Nat)
    (hzero : width = 0 ∨ height = 0) :
    surface_attributes (Except.ok wh) width height =
        Outcome.panic unwrap_none_msg ∧
      (∀ e, surface_attributes (Except.ok wh) width height ≠
        Outcome.err e) ∧
      (∀ (env : Env) (prefer_samples : Option Nat) {dh d : Nat}
          {cfg : Config} {cfgs : List Config},
        env.display_handle = Except.ok dh →
        env.window_handle = Except.ok wh →
        env.create_display = Except.ok d →
        env.find_configs = Except.ok (cfg :: cfgs) →
        new_with_debug_callback env width height prefer_samples =
          Outcome.panic unwrap_none_msg) := by
  have hsa : surface_attributes (Except.ok wh) width height =
      Outcome.panic unwrap_none_msg := by
    by_cases hw : width = 0
    · simp [surface_attributes, nonZeroU32_new, hw]
    · have hh : height = 0 := hzero.resolve_left hw
      simp [surface_attributes, nonZeroU32_new, hw, hh]
  refine ⟨hsa, fun e he => ?_, ?_⟩
  · rw [hsa] at he
    exact Outcome.noConfusion he
  · intro env prefer_samples dh d cfg cfgs h1 h2 h3 h4
    simp only [new_with_debug_callback, h1, h2, h3, h4, chooseConfig,
      selectConfig, hsa]

/-- C10 witness: acquiring with width 0 against an otherwise fully
functional platform panics rather than erroring. -/
theorem claim_C10_witness :
    surface_attributes (Except.ok 2) 0 480 = Outcome.panic unwrap_none_msg ∧
      new_with_debug_callback envZeroDim 0 480 none =
        Outcome.panic unwrap_none_msg := by
  have h := claim_C10_zero_dimension_panics 2 0 480 (Or.inl rfl)
  exact ⟨h.1, h.2.2 envZeroDim none rfl rfl rfl rfl⟩

end Ezgl
